import Mathlib

/-!
Verification of the call-signaling core of the `social` repository.

The repository's call layer consists of:
  * `src/socket-server.ts` — the relay: an online-user registry
    (userId → socketId) and one forwarding handler per signaling event;
    every forwarded event carries `from := userId`, the id the sending
    socket authenticated with at connection time.
  * `src/hooks/useWebRTC.ts` — the client call hook (namespace `Hooks`
    below): session state, `endCall` with an in-flight guard, media
    toggles, and socket handlers filtered by `callId` and the presence
    of the peer connection.
  * the revised hook iteration contained in `src/unnamed/part_011`
    (the version with the ICE candidate queue, the
    failed/closed-only termination, and the audio-only toggle warning;
    namespace `Part011` below).
  * `src/components/CallProvider.tsx` — the incoming-call prompt and
    busy auto-reject logic (namespace `Provider` below).

Streams and peer connections are modelled shallowly: a media stream is a
list of tracks, a peer connection is a flag plus the observable pieces of
its state the code manipulates (remote description set, applied ICE
candidates).  Socket emissions and other side effects are returned as
explicit effect traces.
-/

/-- Call status enum, from `CallStatus` in `types/chat.types.ts`
(`"idle" | "calling" | "ringing" | "connected"` as used by the hooks). -/
inductive CallStatus where
  | idle
  | calling
  | ringing
  | connected
deriving DecidableEq

/-- Kind of a media track (`track.kind` in the browser API). -/
inductive TrackKind where
  | audio
  | video
deriving DecidableEq

/-- A media track: its kind and its `enabled` flag.  `MediaStream` is
modelled as `List MediaTrack`. -/
structure MediaTrack where
  kind : TrackKind
  enabled : Bool
deriving DecidableEq

/-- Model of `stream.getVideoTracks()[0].enabled = !enabled` (and the
audio analogue): find the first track of the given kind and flip its
`enabled` flag in place, returning the updated track list and the new
flag value; `none` when no track of that kind exists. -/
def flipFirst (k : TrackKind) : List MediaTrack → Option (List MediaTrack × Bool)
  | [] => none
  | t :: ts =>
    if t.kind = k then
      some ({ t with enabled := !t.enabled } :: ts, !t.enabled)
    else
      match flipFirst k ts with
      | some (ts', b) => some (t :: ts', b)
      | none => none

theorem flipFirst_kinds (k : TrackKind) (ts ts' : List MediaTrack) (b : Bool)
    (h : flipFirst k ts = some (ts', b)) :
    ts'.map MediaTrack.kind = ts.map MediaTrack.kind := by
  induction ts generalizing ts' with
  | nil => simp [flipFirst] at h
  | cons t rest ih =>
    by_cases hk : t.kind = k
    · simp only [flipFirst, if_pos hk] at h
      cases h
      simp
    · simp only [flipFirst, if_neg hk] at h
      cases hrec : flipFirst k rest with
      | none => rw [hrec] at h; cases h
      | some p =>
        rw [hrec] at h
        cases p with
        | mk l bb =>
          cases h
          simpa using ih l hrec

theorem flipFirst_eq_none_of_no_kind (k : TrackKind) (ts : List MediaTrack)
    (h : ∀ t ∈ ts, t.kind ≠ k) : flipFirst k ts = none := by
  induction ts with
  | nil => rfl
  | cons t rest ih =>
    have ht : t.kind ≠ k := h t (by simp)
    simp only [flipFirst, if_neg ht]
    rw [ih (fun x hx => h x (by simp [hx]))]

namespace Server

/-!  Model of `src/socket-server.ts` (lines 48–295).  The online-user
registry `onlineUsers : Map<string, string>` (userId → socketId) is an
association list; each signaling handler looks the target up and, when
online, forwards the event to the target's socket with
`from := userId` — the id taken from `socket.handshake.auth.userId`
at connection time, never from the payload. -/

/-- `onlineUsers.get(uid)` on the association-list model of the Map. -/
def getSock : List (String × String) → String → Option String
  | [], _ => none
  | (k, v) :: rest, uid => if k = uid then some v else getSock rest uid

/-- Payload of a client `initiate-call` emission (socket-server.ts:177). -/
structure InitiateCallData where
  toUser : String
  callId : String
  isVideoCall : Bool
  callerName : String
  callerImage : Option String
deriving DecidableEq

/-- Payload of `accept-call` / `reject-call` / `end-call`. -/
structure ToCallId where
  toUser : String
  callId : String
deriving DecidableEq

/-- Payload of `webrtc-offer` / `webrtc-answer` / `webrtc-ice-candidate`;
the session description or candidate is kept opaque. -/
structure SdpData where
  toUser : String
  payload : String
  callId : String
deriving DecidableEq

/-- Events the server emits to clients.  The second `String` argument of
each constructor is the `from` field of the delivered payload
(`fromUser` because `from` is a Lean keyword). -/
inductive ServerEvent where
  | callInitiated (callId : String) (fromUser : String) (isVideoCall : Bool)
      (callerName : String) (callerImage : Option String)
  | callAccepted (callId : String) (fromUser : String)
  | callRejected (callId : String) (fromUser : String)
  | callEnded (callId : String) (fromUser : String)
  | webrtcOffer (offer : String) (fromUser : String) (callId : String)
  | webrtcAnswer (answer : String) (fromUser : String) (callId : String)
  | webrtcIce (candidate : String) (fromUser : String) (callId : String)
deriving DecidableEq

/-- A delivery: either `io.to(targetSocketId).emit(...)` or
`socket.emit(...)` back to the sending socket. -/
inductive ServerOut where
  | toTarget (sockId : String) (ev : ServerEvent)
  | toSender (ev : ServerEvent)
deriving DecidableEq

/-- `socket.on("initiate-call")` (socket-server.ts:177–202): forward a
`call-initiated` to the target when online; otherwise synthesize a
`call-rejected` back to the caller with the same callId and
`from := data.to`. -/
def handleInitiateCall (users : List (String × String)) (userId : String)
    (d : InitiateCallData) : List ServerOut :=
  match getSock users d.toUser with
  | some sid =>
      [.toTarget sid (.callInitiated d.callId userId d.isVideoCall d.callerName d.callerImage)]
  | none => [.toSender (.callRejected d.callId d.toUser)]

/-- `socket.on("accept-call")` (socket-server.ts:205–216). -/
def handleAcceptCall (users : List (String × String)) (userId : String)
    (d : ToCallId) : List ServerOut :=
  match getSock users d.toUser with
  | some sid => [.toTarget sid (.callAccepted d.callId userId)]
  | none => []

/-- `socket.on("reject-call")` (socket-server.ts:219–228). -/
def handleRejectCall (users : List (String × String)) (userId : String)
    (d : ToCallId) : List ServerOut :=
  match getSock users d.toUser with
  | some sid => [.toTarget sid (.callRejected d.callId userId)]
  | none => []

/-- `socket.on("end-call")` (socket-server.ts:231–240). -/
def handleEndCall (users : List (String × String)) (userId : String)
    (d : ToCallId) : List ServerOut :=
  match getSock users d.toUser with
  | some sid => [.toTarget sid (.callEnded d.callId userId)]
  | none => []

/-- `socket.on("webrtc-offer")` (socket-server.ts:243–259). -/
def handleWebrtcOffer (users : List (String × String)) (userId : String)
    (d : SdpData) : List ServerOut :=
  match getSock users d.toUser with
  | some sid => [.toTarget sid (.webrtcOffer d.payload userId d.callId)]
  | none => []

/-- `socket.on("webrtc-answer")` (socket-server.ts:262–278). -/
def handleWebrtcAnswer (users : List (String × String)) (userId : String)
    (d : SdpData) : List ServerOut :=
  match getSock users d.toUser with
  | some sid => [.toTarget sid (.webrtcAnswer d.payload userId d.callId)]
  | none => []

/-- `socket.on("webrtc-ice-candidate")` (socket-server.ts:281–295). -/
def handleWebrtcIce (users : List (String × String)) (userId : String)
    (d : SdpData) : List ServerOut :=
  match getSock users d.toUser with
  | some sid => [.toTarget sid (.webrtcIce d.payload userId d.callId)]
  | none => []

/-- The `from` field of a delivered server event. -/
def originOf : ServerEvent → String
  | .callInitiated _ f _ _ _ => f
  | .callAccepted _ f => f
  | .callRejected _ f => f
  | .callEnded _ f => f
  | .webrtcOffer _ f _ => f
  | .webrtcAnswer _ f _ => f
  | .webrtcIce _ f _ => f

/-- Holds when a delivery addressed to the recipient (the forwarding
target) carries `from = uid`; deliveries back to the sender are not
forwardings and are not constrained. -/
def forwardOriginIs (uid : String) : ServerOut → Bool
  | .toTarget _ ev => originOf ev == uid
  | .toSender _ => true

end Server

/-- C8: a `initiate-call` whose target is absent from the online-user
registry makes the relay synthesize an immediate `call-rejected` back to
the caller's own socket, carrying the same callId and `from` set to the
unreachable target; nothing is forwarded, so the caller is never left
waiting silently. -/
theorem c8_unreachable_target_rejected
    (users : List (String × String)) (userId : String)
    (d : Server.InitiateCallData)
    (h : Server.getSock users d.toUser = none) :
    Server.handleInitiateCall users userId d =
      [.toSender (.callRejected d.callId d.toUser)] := by
  simp [Server.handleInitiateCall, h]

theorem c8_unreachable_target_rejected_witness :
    Server.getSock [("alice", "sock-1")] "bob" = none ∧
    Server.handleInitiateCall [("alice", "sock-1")] "alice"
        ⟨"bob", "call-1", true, "Alice", none⟩ =
      [.toSender (.callRejected "call-1" "bob")] := by
  refine ⟨by decide, ?_⟩
  exact c8_unreachable_target_rejected [("alice", "sock-1")] "alice"
    ⟨"bob", "call-1", true, "Alice", none⟩ (by decide)

/-- C9: for every call-signaling event the relay forwards (initiate-call,
accept-call, reject-call, end-call, webrtc-offer, webrtc-answer,
webrtc-ice-candidate), every delivery addressed to the recipient carries
`from` equal to the userId the sending socket authenticated with at
connection time.  Since the stated `from` is the handler's `userId`
argument for every payload, it is independent of the sender-supplied
payload: a sender cannot spoof the apparent origin of a call event. -/
theorem c9_forwarded_origin_is_authenticated
    (users : List (String × String)) (userId : String)
    (d1 : Server.InitiateCallData) (d2 d3 d4 : Server.ToCallId)
    (d5 d6 d7 : Server.SdpData) :
    ((Server.handleInitiateCall users userId d1).all (Server.forwardOriginIs userId) = true) ∧
    ((Server.handleAcceptCall users userId d2).all (Server.forwardOriginIs userId) = true) ∧
    ((Server.handleRejectCall users userId d3).all (Server.forwardOriginIs userId) = true) ∧
    ((Server.handleEndCall users userId d4).all (Server.forwardOriginIs userId) = true) ∧
    ((Server.handleWebrtcOffer users userId d5).all (Server.forwardOriginIs userId) = true) ∧
    ((Server.handleWebrtcAnswer users userId d6).all (Server.forwardOriginIs userId) = true) ∧
    ((Server.handleWebrtcIce users userId d7).all (Server.forwardOriginIs userId) = true) := by
  refine ⟨?_, ?_, ?_, ?_, ?_, ?_, ?_⟩
  · cases h : Server.getSock users d1.toUser <;>
      simp [Server.handleInitiateCall, Server.forwardOriginIs, Server.originOf, h]
  · cases h : Server.getSock users d2.toUser <;>
      simp [Server.handleAcceptCall, Server.forwardOriginIs, Server.originOf, h]
  · cases h : Server.getSock users d3.toUser <;>
      simp [Server.handleRejectCall, Server.forwardOriginIs, Server.originOf, h]
  · cases h : Server.getSock users d4.toUser <;>
      simp [Server.handleEndCall, Server.forwardOriginIs, Server.originOf, h]
  · cases h : Server.getSock users d5.toUser <;>
      simp [Server.handleWebrtcOffer, Server.forwardOriginIs, Server.originOf, h]
  · cases h : Server.getSock users d6.toUser <;>
      simp [Server.handleWebrtcAnswer, Server.forwardOriginIs, Server.originOf, h]
  · cases h : Server.getSock users d7.toUser <;>
      simp [Server.handleWebrtcIce, Server.forwardOriginIs, Server.originOf, h]

namespace Hooks

/-!  Model of `src/hooks/useWebRTC.ts` — the hook wired into
`CallProvider.tsx`.  The state gathers the hook's `useState` values and
refs; the peer connection is modelled by its presence flag `pc` together
with the observable pieces the handlers mutate (`pcRemoteDesc`,
`pcLocalDesc`, `pcCands`).  Each operation returns the new state and the
trace of its side effects (socket emissions, `track.stop()` calls,
`pc.close()`). -/

/-- Side effects of the hook operations. -/
inductive HookEff where
  | emitEndCall (toUser : String) (callId : String)
  | emitOffer (toUser : String) (callId : String)
  | emitAnswer (toUser : String) (callId : String)
  | emitAccept (toUser : String) (callId : String)
  | emitReject (toUser : String) (callId : String)
  | stopLocalTrack (kind : TrackKind)
  | stopScreenTrack (kind : TrackKind)
  | closePC
deriving DecidableEq

/-- State of `useWebRTC` (useWebRTC.ts:27–43). -/
structure HState where
  callStatus : CallStatus
  callId : Option String
  isVideoCall : Bool
  isVideoEnabled : Bool
  isAudioEnabled : Bool
  isScreenSharing : Bool
  otherUser : Option String
  error : Option String
  localStream : Option (List MediaTrack)
  remoteStream : Bool
  screenStream : Option (List MediaTrack)
  otherUserId : Option String
  isEndingCall : Bool
  hasSocket : Bool
  pc : Bool
  pcRemoteDesc : Bool
  pcLocalDesc : Bool
  pcCands : List String
deriving DecidableEq

/-- The hook's initial state (all `useState` defaults, null refs). -/
def initState : HState where
  callStatus := .idle
  callId := none
  isVideoCall := false
  isVideoEnabled := true
  isAudioEnabled := true
  isScreenSharing := false
  otherUser := none
  error := none
  localStream := none
  remoteStream := false
  screenStream := none
  otherUserId := none
  isEndingCall := false
  hasSocket := true
  pc := false
  pcRemoteDesc := false
  pcLocalDesc := false
  pcCands := []

/-- Trace of `track.stop()` calls over a local stream's tracks. -/
def stopsOfLocal (ts : List MediaTrack) : List HookEff :=
  ts.map fun t => .stopLocalTrack t.kind

/-- Trace of `track.stop()` calls over the screen-share stream's tracks. -/
def stopsOfScreen (ts : List MediaTrack) : List HookEff :=
  ts.map fun t => .stopScreenTrack t.kind

/-- `endCall` (useWebRTC.ts:264–317).  If the in-flight guard
`isEndingCallRef` is set, return immediately with no effect.  Otherwise
set the guard, emit `end-call` when socket, peer id and callId are all
present, stop every local and screen-share track, close the peer
connection if present, null out the refs and reset all UI state to
defaults.  The `setTimeout` that clears the guard 500 ms later is not
modelled: the claims concern invocations before the guard resets. -/
def endCall (s : HState) : HState × List HookEff :=
  if s.isEndingCall then (s, [])
  else
    let emitPart : List HookEff :=
      match s.hasSocket, s.otherUserId, s.callId with
      | true, some u, some c => [.emitEndCall u c]
      | _, _, _ => []
    let localStops := stopsOfLocal (s.localStream.getD [])
    let screenStops := stopsOfScreen (s.screenStream.getD [])
    let closePart : List HookEff := if s.pc then [.closePC] else []
    ({ s with
        isEndingCall := true
        localStream := none
        remoteStream := false
        screenStream := none
        otherUserId := none
        pc := false
        pcRemoteDesc := false
        pcLocalDesc := false
        pcCands := []
        callStatus := .idle
        callId := none
        otherUser := none
        isScreenSharing := false
        isVideoEnabled := true
        isAudioEnabled := true
        error := none },
     emitPart ++ localStops ++ screenStops ++ closePart)

/-- `answerCall` (useWebRTC.ts:223–261), success path: record the
incoming call's id and caller, set status to connected, acquire the
media stream (passed in as `stream`), create a fresh peer connection and
emit `accept-call`. -/
def answerCall (s : HState) (incomingCallId fromUser : String) (video : Bool)
    (stream : List MediaTrack) : HState × List HookEff :=
  ({ s with
      error := none
      isEndingCall := false
      callId := some incomingCallId
      isVideoCall := video
      otherUser := some fromUser
      callStatus := .connected
      otherUserId := some fromUser
      localStream := some stream
      pc := true
      pcRemoteDesc := false
      pcLocalDesc := false
      pcCands := [] },
   if s.hasSocket then [.emitAccept fromUser incomingCallId] else [])

/-- `socket.on("webrtc-offer")` handler (useWebRTC.ts:414–435), success
path: when a peer connection exists and the event's callId matches the
hook's, apply the remote description, create an answer, set it as local
description and emit `webrtc-answer`; otherwise do nothing. -/
def handleOffer (s : HState) (fromUser offerCallId : String) : HState × List HookEff :=
  if s.pc = true ∧ s.callId = some offerCallId then
    ({ s with pcRemoteDesc := true, pcLocalDesc := true },
     [.emitAnswer fromUser offerCallId])
  else (s, [])

/-- `socket.on("webrtc-answer")` handler (useWebRTC.ts:437–449), success
path. -/
def handleAnswer (s : HState) (answerCallId : String) : HState × List HookEff :=
  if s.pc = true ∧ s.callId = some answerCallId then
    ({ s with pcRemoteDesc := true }, [])
  else (s, [])

/-- `socket.on("webrtc-ice-candidate")` handler (useWebRTC.ts:451–464),
success path: the candidate is applied immediately whenever the guard
passes (this revision has no pending queue). -/
def handleIceCandidate (s : HState) (candidate candidateCallId : String) :
    HState × List HookEff :=
  if s.pc = true ∧ s.callId = some candidateCallId then
    ({ s with pcCands := s.pcCands ++ [candidate] }, [])
  else (s, [])

/-- `socket.on("call-accepted")` handler (useWebRTC.ts:395–412), success
path: when the callId matches and a peer connection exists, create an
offer, set it as local description and emit `webrtc-offer`.  The hook
keeps no role flag, so this guard does not check that the client is the
initiator. -/
def handleCallAccepted (s : HState) (fromUser acceptedCallId : String) :
    HState × List HookEff :=
  if s.callId = some acceptedCallId ∧ s.pc = true then
    ({ s with pcLocalDesc := true }, [.emitOffer fromUser acceptedCallId])
  else (s, [])

/-- `toggleVideo` (useWebRTC.ts:320–330): if a local stream exists and it
has a video track, flip that track's `enabled` flag in place and mirror
it into `isVideoEnabled`; otherwise do nothing.  No emission ever. -/
def toggleVideo (s : HState) : HState × List HookEff :=
  match s.localStream with
  | none => (s, [])
  | some ts =>
    match flipFirst .video ts with
    | none => (s, [])
    | some (ts', b) => ({ s with localStream := some ts', isVideoEnabled := b }, [])

/-- `toggleAudio` (useWebRTC.ts:333–343), the audio analogue. -/
def toggleAudio (s : HState) : HState × List HookEff :=
  match s.localStream with
  | none => (s, [])
  | some ts =>
    match flipFirst .audio ts with
    | none => (s, [])
    | some (ts', b) => ({ s with localStream := some ts', isAudioEnabled := b }, [])

theorem count_emitEndCall_stopsOfLocal (u c : String) (ts : List MediaTrack) :
    (stopsOfLocal ts).count (HookEff.emitEndCall u c) = 0 := by
  rw [List.count_eq_zero]
  simp [stopsOfLocal]

theorem count_emitEndCall_stopsOfScreen (u c : String) (ts : List MediaTrack) :
    (stopsOfScreen ts).count (HookEff.emitEndCall u c) = 0 := by
  rw [List.count_eq_zero]
  simp [stopsOfScreen]

end Hooks

theorem endCall_of_ending (s : Hooks.HState) (h : s.isEndingCall = true) :
    Hooks.endCall s = (s, []) := by
  simp [Hooks.endCall, h]

theorem endCall_sets_guard (s : Hooks.HState) (h : s.isEndingCall = false) :
    (Hooks.endCall s).1.isEndingCall = true := by
  simp [Hooks.endCall, h]

/-- C3: termination is idempotent under the in-flight guard.  For any
session state with the guard clear and an addressable peer (socket
present, peer id and callId set), invoking `endCall` twice in immediate
succession (before the guard resets) performs the cleanup exactly once:
the first invocation produces exactly one `end-call` emission followed
by one stop per local and screen-share track and one close of the peer
connection (when present), and resets all per-session state to its
defaults; the second invocation returns without any effect (state
unchanged, empty effect trace), so in particular there is no double
emission and no double track-stop. -/
theorem c3_endCall_idempotent (s : Hooks.HState) (u c : String)
    (hg : s.isEndingCall = false) (hs : s.hasSocket = true)
    (hu : s.otherUserId = some u) (hc : s.callId = some c) :
    (Hooks.endCall (Hooks.endCall s).1).1 = (Hooks.endCall s).1 ∧
    (Hooks.endCall (Hooks.endCall s).1).2 = [] ∧
    (Hooks.endCall s).2 =
      Hooks.HookEff.emitEndCall u c ::
        (Hooks.stopsOfLocal (s.localStream.getD []) ++
         Hooks.stopsOfScreen (s.screenStream.getD []) ++
         (if s.pc then [Hooks.HookEff.closePC] else [])) ∧
    ((Hooks.endCall s).2 ++ (Hooks.endCall (Hooks.endCall s).1).2).count
        (Hooks.HookEff.emitEndCall u c) = 1 ∧
    (Hooks.endCall s).1.callStatus = .idle ∧
    (Hooks.endCall s).1.callId = none ∧
    (Hooks.endCall s).1.otherUser = none ∧
    (Hooks.endCall s).1.localStream = none ∧
    (Hooks.endCall s).1.remoteStream = false ∧
    (Hooks.endCall s).1.screenStream = none ∧
    (Hooks.endCall s).1.otherUserId = none ∧
    (Hooks.endCall s).1.pc = false ∧
    (Hooks.endCall s).1.isScreenSharing = false ∧
    (Hooks.endCall s).1.isVideoEnabled = true ∧
    (Hooks.endCall s).1.isAudioEnabled = true ∧
    (Hooks.endCall s).1.error = none := by
  have hsecond := endCall_of_ending (Hooks.endCall s).1 (endCall_sets_guard s hg)
  refine ⟨by rw [hsecond], by rw [hsecond], ?_, ?_, ?_, ?_, ?_, ?_, ?_, ?_, ?_, ?_,
    ?_, ?_, ?_, ?_⟩ <;>
    simp [Hooks.endCall, hg, hs, hu, hc, hsecond, List.count_append, List.count_cons,
      Hooks.count_emitEndCall_stopsOfLocal, Hooks.count_emitEndCall_stopsOfScreen]
  cases s.pc <;> simp

theorem c3_endCall_idempotent_witness :
    ((Hooks.answerCall Hooks.initState "call-7" "peer" true
        [⟨.audio, true⟩, ⟨.video, true⟩]).1.isEndingCall = false ∧
     (Hooks.answerCall Hooks.initState "call-7" "peer" true
        [⟨.audio, true⟩, ⟨.video, true⟩]).1.hasSocket = true ∧
     (Hooks.answerCall Hooks.initState "call-7" "peer" true
        [⟨.audio, true⟩, ⟨.video, true⟩]).1.otherUserId = some "peer" ∧
     (Hooks.answerCall Hooks.initState "call-7" "peer" true
        [⟨.audio, true⟩, ⟨.video, true⟩]).1.callId = some "call-7") ∧
    ((Hooks.endCall (Hooks.answerCall Hooks.initState "call-7" "peer" true
          [⟨.audio, true⟩, ⟨.video, true⟩]).1).2 ++
      (Hooks.endCall (Hooks.endCall (Hooks.answerCall Hooks.initState "call-7" "peer" true
          [⟨.audio, true⟩, ⟨.video, true⟩]).1).1).2).count
        (Hooks.HookEff.emitEndCall "peer" "call-7") = 1 :=
  ⟨⟨by decide, by decide, by decide, by decide⟩,
   (c3_endCall_idempotent
      (Hooks.answerCall Hooks.initState "call-7" "peer" true
        [⟨.audio, true⟩, ⟨.video, true⟩]).1 "peer" "call-7"
      (by decide) (by decide) (by decide) (by decide)).2.2.2.1⟩

/-- C4 (amended): inbound `webrtc-offer`, `webrtc-answer`,
`webrtc-ice-candidate` and `call-accepted` events whose callId differs
from the locally tracked active callId, or which arrive when no peer
connection exists (in particular when no session is active), are
ignored: the state is unchanged (no remote description applied, no
session field mutated) and nothing is emitted (no answer or offer
created).  The hook filters inbound signaling by callId and
peer-connection presence only; it does not track roles. -/
theorem c4_stale_event_ignored (s : Hooks.HState) (f cand evId : String)
    (h : ¬(s.pc = true ∧ s.callId = some evId)) :
    Hooks.handleOffer s f evId = (s, []) ∧
    Hooks.handleAnswer s evId = (s, []) ∧
    Hooks.handleIceCandidate s cand evId = (s, []) ∧
    Hooks.handleCallAccepted s f evId = (s, []) := by
  have h' : ¬(s.callId = some evId ∧ s.pc = true) := fun hx => h ⟨hx.2, hx.1⟩
  exact ⟨by simp [Hooks.handleOffer, h], by simp [Hooks.handleAnswer, h],
    by simp [Hooks.handleIceCandidate, h], by simp [Hooks.handleCallAccepted, h']⟩

theorem c4_stale_event_ignored_witness :
    (¬(Hooks.initState.pc = true ∧ Hooks.initState.callId = some "call-9")) ∧
    Hooks.handleOffer Hooks.initState "peer" "call-9" = (Hooks.initState, []) :=
  ⟨by decide,
   (c4_stale_event_ignored Hooks.initState "peer" "cand" "call-9" (by decide)).1⟩

/-- C4 counterexample: the claim additionally asserts that any inbound
signaling event whose expected role does not match the local role is
ignored; the code has no role check.  Concretely, a client that became
the receiver by answering call `call-1` (so the expected recipient of
`call-accepted` is the initiator, not this client) still processes an
inbound `call-accepted` for `call-1`: it emits a `webrtc-offer` and
mutates the peer-connection state instead of ignoring the event. -/
theorem c4_role_not_checked_counterexample :
    (Hooks.handleCallAccepted
        (Hooks.answerCall Hooks.initState "call-1" "peer" true [⟨.audio, true⟩]).1
        "peer" "call-1").2 = [Hooks.HookEff.emitOffer "peer" "call-1"] ∧
    (Hooks.handleCallAccepted
        (Hooks.answerCall Hooks.initState "call-1" "peer" true [⟨.audio, true⟩]).1
        "peer" "call-1").1 ≠
      (Hooks.answerCall Hooks.initState "call-1" "peer" true [⟨.audio, true⟩]).1 := by
  exact ⟨by decide, by decide⟩

/-- C6: toggling video or audio is local-only.  For every state, the
toggle emits no signaling event, and the resulting state differs from
the input at most in the local stream's track list and the mirrored
`isVideoEnabled` / `isAudioEnabled` UI flag (expressed by the record
update below, which fixes every other field — in particular `callId`,
the peer connection and the connection state are unchanged, as the two
explicit conjuncts restate).  The track list keeps the same tracks in
the same order (same kinds); when a track of the toggled kind exists,
the first such track's `enabled` flag is flipped in place and mirrored
into the UI flag. -/
theorem c6_toggle_local_only (s : Hooks.HState) :
    (Hooks.toggleVideo s).2 = [] ∧
    (Hooks.toggleVideo s).1.callId = s.callId ∧
    (Hooks.toggleVideo s).1.pc = s.pc ∧
    (Hooks.toggleVideo s).1.callStatus = s.callStatus ∧
    (∃ ls ve, (Hooks.toggleVideo s).1 =
        { s with localStream := ls, isVideoEnabled := ve } ∧
      (ls.getD []).map MediaTrack.kind = (s.localStream.getD []).map MediaTrack.kind) ∧
    (∀ ts ts' b, s.localStream = some ts → flipFirst .video ts = some (ts', b) →
      (Hooks.toggleVideo s).1.localStream = some ts' ∧
      (Hooks.toggleVideo s).1.isVideoEnabled = b) ∧
    (Hooks.toggleAudio s).2 = [] ∧
    (Hooks.toggleAudio s).1.callId = s.callId ∧
    (Hooks.toggleAudio s).1.pc = s.pc ∧
    (Hooks.toggleAudio s).1.callStatus = s.callStatus ∧
    (∃ ls ae, (Hooks.toggleAudio s).1 =
        { s with localStream := ls, isAudioEnabled := ae } ∧
      (ls.getD []).map MediaTrack.kind = (s.localStream.getD []).map MediaTrack.kind) ∧
    (∀ ts ts' b, s.localStream = some ts → flipFirst .audio ts = some (ts', b) →
      (Hooks.toggleAudio s).1.localStream = some ts' ∧
      (Hooks.toggleAudio s).1.isAudioEnabled = b) := by
  have hv : (Hooks.toggleVideo s = (s, []) ∧
      ∀ ts, s.localStream = some ts → flipFirst .video ts = none) ∨
      ∃ ts ts' b, s.localStream = some ts ∧ flipFirst .video ts = some (ts', b) ∧
        Hooks.toggleVideo s =
          ({ s with localStream := some ts', isVideoEnabled := b }, []) := by
    cases hls : s.localStream with
    | none => exact Or.inl ⟨by simp [Hooks.toggleVideo, hls], by simp [hls]⟩
    | some ts =>
      cases hf : flipFirst .video ts with
      | none =>
        refine Or.inl ⟨by simp [Hooks.toggleVideo, hls, hf], ?_⟩
        intro ts0 h0
        cases h0
        exact hf
      | some p =>
        exact Or.inr ⟨ts, p.1, p.2, rfl, by rw [hf],
          by simp [Hooks.toggleVideo, hls, hf]⟩
  have ha : (Hooks.toggleAudio s = (s, []) ∧
      ∀ ts, s.localStream = some ts → flipFirst .audio ts = none) ∨
      ∃ ts ts' b, s.localStream = some ts ∧ flipFirst .audio ts = some (ts', b) ∧
        Hooks.toggleAudio s =
          ({ s with localStream := some ts', isAudioEnabled := b }, []) := by
    cases hls : s.localStream with
    | none => exact Or.inl ⟨by simp [Hooks.toggleAudio, hls], by simp [hls]⟩
    | some ts =>
      cases hf : flipFirst .audio ts with
      | none =>
        refine Or.inl ⟨by simp [Hooks.toggleAudio, hls, hf], ?_⟩
        intro ts0 h0
        cases h0
        exact hf
      | some p =>
        exact Or.inr ⟨ts, p.1, p.2, rfl, by rw [hf],
          by simp [Hooks.toggleAudio, hls, hf]⟩
  have video_part : (Hooks.toggleVideo s).2 = [] ∧
      (Hooks.toggleVideo s).1.callId = s.callId ∧
      (Hooks.toggleVideo s).1.pc = s.pc ∧
      (Hooks.toggleVideo s).1.callStatus = s.callStatus ∧
      (∃ ls ve, (Hooks.toggleVideo s).1 =
          { s with localStream := ls, isVideoEnabled := ve } ∧
        (ls.getD []).map MediaTrack.kind = (s.localStream.getD []).map MediaTrack.kind) ∧
      (∀ ts ts' b, s.localStream = some ts → flipFirst .video ts = some (ts', b) →
        (Hooks.toggleVideo s).1.localStream = some ts' ∧
        (Hooks.toggleVideo s).1.isVideoEnabled = b) := by
    rcases hv with ⟨hv, hvn⟩ | ⟨tsv, tsv', bv, hlsv, hfv, hv⟩
    · refine ⟨by rw [hv], by rw [hv], by rw [hv], by rw [hv],
        ⟨s.localStream, s.isVideoEnabled, by rw [hv], rfl⟩, ?_⟩
      intro ts ts' b hls hf
      rw [hvn ts hls] at hf
      cases hf
    · refine ⟨by rw [hv], by rw [hv], by rw [hv], by rw [hv],
        ⟨some tsv', bv, by rw [hv], by
          simpa [hlsv] using flipFirst_kinds _ tsv tsv' bv hfv⟩, ?_⟩
      intro ts ts' b hls hf
      rw [hls] at hlsv
      cases hlsv
      rw [hf] at hfv
      cases hfv
      exact ⟨by rw [hv], by rw [hv]⟩
  have audio_part : (Hooks.toggleAudio s).2 = [] ∧
      (Hooks.toggleAudio s).1.callId = s.callId ∧
      (Hooks.toggleAudio s).1.pc = s.pc ∧
      (Hooks.toggleAudio s).1.callStatus = s.callStatus ∧
      (∃ ls ae, (Hooks.toggleAudio s).1 =
          { s with localStream := ls, isAudioEnabled := ae } ∧
        (ls.getD []).map MediaTrack.kind = (s.localStream.getD []).map MediaTrack.kind) ∧
      (∀ ts ts' b, s.localStream = some ts → flipFirst .audio ts = some (ts', b) →
        (Hooks.toggleAudio s).1.localStream = some ts' ∧
        (Hooks.toggleAudio s).1.isAudioEnabled = b) := by
    rcases ha with ⟨ha, han⟩ | ⟨tsa, tsa', ba, hlsa, hfa, ha⟩
    · refine ⟨by rw [ha], by rw [ha], by rw [ha], by rw [ha],
        ⟨s.localStream, s.isAudioEnabled, by rw [ha], rfl⟩, ?_⟩
      intro ts ts' b hls hf
      rw [han ts hls] at hf
      cases hf
    · refine ⟨by rw [ha], by rw [ha], by rw [ha], by rw [ha],
        ⟨some tsa', ba, by rw [ha], by
          simpa [hlsa] using flipFirst_kinds _ tsa tsa' ba hfa⟩, ?_⟩
      intro ts ts' b hls hf
      rw [hls] at hlsa
      cases hlsa
      rw [hf] at hfa
      cases hfa
      exact ⟨by rw [ha], by rw [ha]⟩
  exact ⟨video_part.1, video_part.2.1, video_part.2.2.1, video_part.2.2.2.1,
    video_part.2.2.2.2.1, video_part.2.2.2.2.2,
    audio_part.1, audio_part.2.1, audio_part.2.2.1, audio_part.2.2.2.1,
    audio_part.2.2.2.2.1, audio_part.2.2.2.2.2⟩

theorem c6_toggle_local_only_witness :
    (Hooks.toggleVideo
        { Hooks.initState with
            localStream := some [⟨.audio, true⟩, ⟨.video, true⟩] }).2 = [] ∧
    (Hooks.toggleVideo
        { Hooks.initState with
            localStream := some [⟨.audio, true⟩, ⟨.video, true⟩] }).1.localStream =
      some [⟨.audio, true⟩, ⟨.video, false⟩] ∧
    (Hooks.toggleVideo
        { Hooks.initState with
            localStream := some [⟨.audio, true⟩, ⟨.video, true⟩] }).1.isVideoEnabled =
      false := by
  have h := c6_toggle_local_only
    { Hooks.initState with localStream := some [⟨.audio, true⟩, ⟨.video, true⟩] }
  have hflip := h.2.2.2.2.2.1 [⟨.audio, true⟩, ⟨.video, true⟩]
    [⟨.audio, true⟩, ⟨.video, false⟩] false rfl (by decide)
  exact ⟨h.1, hflip.1, hflip.2⟩

namespace Part011

/-!  Model of the revised `useWebRTC` iteration in `src/unnamed/part_011`
(the version labelled "Stable Ref Pattern", lines 308–747 of that file):
the hook revision with the per-session ICE candidate queue
(`iceCandidateQueueRef` gated by `isRemoteDescriptionSetRef`), the
connection-state handler that terminates only on failed/closed, and the
`toggleVideo` that reports unavailability on audio-only calls.  The peer
connection is modelled as a presence flag plus its observable applied
candidate set `pcCands`. -/

/-- State of the part_011 hook: UI state plus the refs. -/
structure PState where
  callStatus : CallStatus
  callId : Option String
  isVideoCall : Bool
  isVideoEnabled : Bool
  isAudioEnabled : Bool
  isScreenSharing : Bool
  otherUser : Option String
  error : Option String
  localTracks : Option (List MediaTrack)
  remoteStream : Bool
  screenTracks : Option (List MediaTrack)
  otherUserId : Option String
  isEndingCall : Bool
  isInitiator : Bool
  hasSocket : Bool
  remoteDescSet : Bool
  queue : List String
  pc : Bool
  pcCands : List String
deriving DecidableEq

/-- Initial hook state. -/
def initP : PState where
  callStatus := .idle
  callId := none
  isVideoCall := false
  isVideoEnabled := true
  isAudioEnabled := true
  isScreenSharing := false
  otherUser := none
  error := none
  localTracks := none
  remoteStream := false
  screenTracks := none
  otherUserId := none
  isEndingCall := false
  isInitiator := false
  hasSocket := true
  remoteDescSet := false
  queue := []
  pc := false
  pcCands := []

/-- `endCall` of the part_011 revision (part_011:382–427): guarded by
`isEndingCallRef`; emits `end-call` when socket, peer id and callId are
present, closes the peer connection, stops and clears both streams, and
resets every ref and UI field (including the ICE queue and the
remote-description gate). -/
def endCall (s : PState) : PState × List Hooks.HookEff :=
  if s.isEndingCall then (s, [])
  else
    let emitPart : List Hooks.HookEff :=
      match s.hasSocket, s.otherUserId, s.callId with
      | true, some u, some c => [.emitEndCall u c]
      | _, _, _ => []
    let closePart : List Hooks.HookEff := if s.pc then [.closePC] else []
    let localStops := Hooks.stopsOfLocal (s.localTracks.getD [])
    let screenStops := Hooks.stopsOfScreen (s.screenTracks.getD [])
    ({ s with
        isEndingCall := true
        pc := false
        pcCands := []
        localTracks := none
        screenTracks := none
        remoteStream := false
        otherUserId := none
        callId := none
        isInitiator := false
        isVideoCall := false
        remoteDescSet := false
        queue := []
        callStatus := .idle
        otherUser := none
        isScreenSharing := false
        isVideoEnabled := true
        isAudioEnabled := true
        error := none },
     emitPart ++ closePart ++ localStops ++ screenStops)

/-- `processIceQueue` (part_011:437–450): when a peer connection exists,
apply every queued candidate to it in FIFO order and clear the queue
(application failures are logged and skipped, which does not change the
success-path candidate set); without a peer connection, do nothing. -/
def processIceQueue (s : PState) : PState :=
  if s.pc then { s with pcCands := s.pcCands ++ s.queue, queue := [] }
  else s

/-- `handleIceCandidate` (part_011:699–707): drop the candidate when the
callId does not match the active call or no peer connection exists;
apply it immediately when the remote description has been set; queue it
otherwise. -/
def handleIceCandidate (s : PState) (candidate candidateCallId : String) : PState :=
  if s.callId ≠ some candidateCallId ∨ s.pc = false then s
  else if s.remoteDescSet then { s with pcCands := s.pcCands ++ [candidate] }
  else { s with queue := s.queue ++ [candidate] }

/-- `handleAnswer` (part_011:690–697): on a matching callId with a live
peer connection, apply the remote description (opening the gate) and
synchronously drain the queue. -/
def handleAnswer (s : PState) (answerCallId : String) : PState :=
  if s.callId ≠ some answerCallId ∨ s.pc = false then s
  else processIceQueue { s with remoteDescSet := true }

/-- `handleOffer` (part_011:676–688), success path: on a matching callId
with a live peer connection, apply the remote description, drain the
queue, then create and emit the answer. -/
def handleOffer (s : PState) (fromUser offerCallId : String) :
    PState × List Hooks.HookEff :=
  if s.callId ≠ some offerCallId ∨ s.pc = false then (s, [])
  else (processIceQueue { s with remoteDescSet := true },
        [.emitAnswer fromUser offerCallId])

/-- Connection states of `RTCPeerConnection.connectionState`. -/
inductive ConnState where
  | fresh
  | connecting
  | connected
  | disconnected
  | failed
  | closed
deriving DecidableEq

/-- `pc.onconnectionstatechange` of the part_011 revision
(part_011:474–489): `connected` sets the status; `failed` records an
error; termination is triggered only for `failed` or `closed` and only
when not already ending; `disconnected` deliberately falls through with
no action. -/
def onConnectionStateChange (cs : ConnState) (s : PState) :
    PState × List Hooks.HookEff :=
  match cs with
  | .connected => ({ s with callStatus := .connected }, [])
  | .failed | .disconnected | .closed =>
    let s1 := if cs = .failed then { s with error := some "Connection failed" } else s
    if (cs = .failed ∨ cs = .closed) ∧ s.isEndingCall = false then endCall s1
    else (s1, [])
  | .fresh | .connecting => (s, [])

/-- `toggleVideo` of the part_011 revision (part_011:523–539): with no
local stream, do nothing; with a video track, flip it in place and
mirror the flag; with a stream but no video track (audio-only call),
warn and surface the error "Video unavailable in audio-only call". -/
def toggleVideo (s : PState) : PState :=
  match s.localTracks with
  | none => s
  | some ts =>
    match flipFirst .video ts with
    | some (ts', b) => { s with localTracks := some ts', isVideoEnabled := b }
    | none => { s with error := some "Video unavailable in audio-only call" }

end Part011

theorem handleIce_queue_foldl (s : Part011.PState) (cid : String) (cs : List String)
    (hcid : s.callId = some cid) (hpc : s.pc = true)
    (hrd : s.remoteDescSet = false) :
    cs.foldl (fun t c0 => Part011.handleIceCandidate t c0 cid) s =
      { s with queue := s.queue ++ cs } := by
  induction cs generalizing s with
  | nil => simp
  | cons c rest ih =>
    have hstep : Part011.handleIceCandidate s c cid = { s with queue := s.queue ++ [c] } := by
      simp [Part011.handleIceCandidate, hcid, hpc, hrd]
    rw [List.foldl_cons, hstep, ih _ (by simp [hcid]) (by simp [hpc]) (by simp [hrd])]
    simp

/-- C1: remote ICE candidates are gated on the remote description.
For a candidate whose callId matches the active session (and a live peer
connection): while the remote description has not been applied the
candidate is appended to the pending queue — the applied candidate set
`pcCands` is untouched, so it is neither applied nor discarded; the
inbound answer (matching callId) applies the remote description and
synchronously drains the whole queue into the peer connection in FIFO
arrival order, clearing the queue so each candidate is applied exactly
once; once the gate is open a candidate bypasses the queue and is
applied immediately; and composing these, any list of candidates (in
particular 3) delivered before the answer ends up applied in arrival
order immediately after the answer is processed, with an empty queue. -/
theorem c1_ice_candidate_gate (s : Part011.PState) (c cid : String)
    (cs : List String) (hcid : s.callId = some cid) (hpc : s.pc = true) :
    (s.remoteDescSet = false →
      Part011.handleIceCandidate s c cid = { s with queue := s.queue ++ [c] }) ∧
    (s.remoteDescSet = true →
      Part011.handleIceCandidate s c cid = { s with pcCands := s.pcCands ++ [c] }) ∧
    Part011.handleAnswer s cid =
      { s with remoteDescSet := true, pcCands := s.pcCands ++ s.queue, queue := [] } ∧
    (s.remoteDescSet = false →
      Part011.handleAnswer
          (cs.foldl (fun t c0 => Part011.handleIceCandidate t c0 cid) s) cid =
        { s with
            remoteDescSet := true
            pcCands := s.pcCands ++ (s.queue ++ cs)
            queue := [] }) := by
  refine ⟨?_, ?_, ?_, ?_⟩
  · intro hrd
    simp [Part011.handleIceCandidate, hcid, hpc, hrd]
  · intro hrd
    simp [Part011.handleIceCandidate, hcid, hpc, hrd]
  · simp [Part011.handleAnswer, Part011.processIceQueue, hcid, hpc]
  · intro hrd
    rw [handleIce_queue_foldl s cid cs hcid hpc hrd]
    simp [Part011.handleAnswer, Part011.processIceQueue, hcid, hpc]

theorem c1_ice_candidate_gate_witness :
    (({ Part011.initP with
          callId := some "call-1"
          pc := true
          callStatus := .connected } : Part011.PState).callId = some "call-1" ∧
     ({ Part011.initP with
          callId := some "call-1"
          pc := true
          callStatus := .connected } : Part011.PState).pc = true ∧
     ({ Part011.initP with
          callId := some "call-1"
          pc := true
          callStatus := .connected } : Part011.PState).remoteDescSet = false) ∧
    Part011.handleAnswer
        (["c1", "c2", "c3"].foldl
          (fun t c0 => Part011.handleIceCandidate t c0 "call-1")
          { Part011.initP with
              callId := some "call-1"
              pc := true
              callStatus := .connected }) "call-1" =
      { ({ Part011.initP with
            callId := some "call-1"
            pc := true
            callStatus := .connected } : Part011.PState) with
          remoteDescSet := true
          pcCands := ({ Part011.initP with
              callId := some "call-1"
              pc := true
              callStatus := .connected } : Part011.PState).pcCands ++
            (({ Part011.initP with
                callId := some "call-1"
                pc := true
                callStatus := .connected } : Part011.PState).queue ++ ["c1", "c2", "c3"])
          queue := [] } :=
  ⟨⟨by decide, by decide, by decide⟩,
   (c1_ice_candidate_gate
      { Part011.initP with
          callId := some "call-1"
          pc := true
          callStatus := .connected }
      "c0" "call-1" ["c1", "c2", "c3"] (by decide) (by decide)).2.2.2 (by decide)⟩

/-- C5: connection-state transitions during an active session.  When
termination is not already in progress, a transition to `failed` records
the error and triggers full call termination (the `endCall` routine:
status back to idle, peer connection gone), a transition to `closed`
likewise triggers termination, and a transition to the transient
`disconnected` state does nothing at all — it never ends the session.
When termination is already in progress, `failed` only records the
error, and `closed` and `disconnected` do nothing. -/
theorem c5_terminate_only_on_failed_or_closed (s : Part011.PState)
    (hg : s.isEndingCall = false) :
    Part011.onConnectionStateChange .failed s =
      Part011.endCall { s with error := some "Connection failed" } ∧
    (Part011.onConnectionStateChange .failed s).1.callStatus = .idle ∧
    (Part011.onConnectionStateChange .failed s).1.pc = false ∧
    Part011.onConnectionStateChange .closed s = Part011.endCall s ∧
    (Part011.onConnectionStateChange .closed s).1.callStatus = .idle ∧
    (Part011.onConnectionStateChange .closed s).1.pc = false ∧
    Part011.onConnectionStateChange .disconnected s = (s, []) ∧
    (∀ s' : Part011.PState, s'.isEndingCall = true →
      Part011.onConnectionStateChange .failed s' =
        ({ s' with error := some "Connection failed" }, []) ∧
      Part011.onConnectionStateChange .closed s' = (s', []) ∧
      Part011.onConnectionStateChange .disconnected s' = (s', [])) := by
  refine ⟨?_, ?_, ?_, ?_, ?_, ?_, ?_, ?_⟩
  · simp [Part011.onConnectionStateChange, hg]
  · simp [Part011.onConnectionStateChange, Part011.endCall, hg]
  · simp [Part011.onConnectionStateChange, Part011.endCall, hg]
  · simp [Part011.onConnectionStateChange, hg]
  · simp [Part011.onConnectionStateChange, Part011.endCall, hg]
  · simp [Part011.onConnectionStateChange, Part011.endCall, hg]
  · simp [Part011.onConnectionStateChange]
  · intro s' hg'
    refine ⟨?_, ?_, ?_⟩ <;> simp [Part011.onConnectionStateChange, hg']

theorem c5_terminate_only_on_failed_or_closed_witness :
    ({ Part011.initP with
        callId := some "call-1"
        pc := true
        callStatus := .connected
        otherUserId := some "peer" } : Part011.PState).isEndingCall = false ∧
    (Part011.onConnectionStateChange .disconnected
        { Part011.initP with
            callId := some "call-1"
            pc := true
            callStatus := .connected
            otherUserId := some "peer" } =
      ({ Part011.initP with
          callId := some "call-1"
          pc := true
          callStatus := .connected
          otherUserId := some "peer" }, []) ∧
     (Part011.onConnectionStateChange .failed
        { Part011.initP with
            callId := some "call-1"
            pc := true
            callStatus := .connected
            otherUserId := some "peer" }).1.callStatus = .idle) :=
  ⟨by decide,
   (c5_terminate_only_on_failed_or_closed
      { Part011.initP with
          callId := some "call-1"
          pc := true
          callStatus := .connected
          otherUserId := some "peer" }
      (by decide)).2.2.2.2.2.2.1,
   (c5_terminate_only_on_failed_or_closed
      { Part011.initP with
          callId := some "call-1"
          pc := true
          callStatus := .connected
          otherUserId := some "peer" }
      (by decide)).2.1⟩

/-- C7: toggling video when the local stream exists but has no video
track (an audio-only call) performs no mutation of the track list or
the peer-connection state — the only change is the surfaced error
message "Video unavailable in audio-only call", so the unavailability is
reported to the user rather than silently succeeding. -/
theorem c7_toggle_video_reports_unavailability (s : Part011.PState)
    (ts : List MediaTrack) (hls : s.localTracks = some ts)
    (hnone : ∀ t ∈ ts, t.kind ≠ .video) :
    Part011.toggleVideo s =
      { s with error := some "Video unavailable in audio-only call" } ∧
    (Part011.toggleVideo s).localTracks = s.localTracks ∧
    (Part011.toggleVideo s).pc = s.pc ∧
    (Part011.toggleVideo s).pcCands = s.pcCands ∧
    (Part011.toggleVideo s).isVideoEnabled = s.isVideoEnabled ∧
    (Part011.toggleVideo s).error ≠ none := by
  have hf := flipFirst_eq_none_of_no_kind .video ts hnone
  refine ⟨?_, ?_, ?_, ?_, ?_, ?_⟩ <;> simp [Part011.toggleVideo, hls, hf]

theorem c7_toggle_video_reports_unavailability_witness :
    (({ Part011.initP with
          localTracks := some [⟨.audio, true⟩]
          callId := some "call-1"
          pc := true } : Part011.PState).localTracks = some [⟨.audio, true⟩] ∧
     (∀ t ∈ ([⟨.audio, true⟩] : List MediaTrack), t.kind ≠ .video)) ∧
    Part011.toggleVideo
        { Part011.initP with
            localTracks := some [⟨.audio, true⟩]
            callId := some "call-1"
            pc := true } =
      { ({ Part011.initP with
            localTracks := some [⟨.audio, true⟩]
            callId := some "call-1"
            pc := true } : Part011.PState) with
          error := some "Video unavailable in audio-only call" } :=
  ⟨⟨by decide, by decide⟩,
   (c7_toggle_video_reports_unavailability
      { Part011.initP with
          localTracks := some [⟨.audio, true⟩]
          callId := some "call-1"
          pc := true }
      [⟨.audio, true⟩] (by decide) (by decide)).1⟩

namespace Provider

/-!  Model of `src/components/CallProvider.tsx`.  The provider couples
the `useWebRTC` hook state it observes (`webrtc.callStatus`, the active
callId/peer, the peer connection) with its own incoming-call state:
`incomingCallRef` (duplicate-notification guard) and the `incomingCall`
modal state, which the component always updates together with the ref.
Operations are the provider's handlers and the hook transitions they
invoke; the busy auto-reject logic lives in `handleCallInitiated`
(CallProvider.tsx:58–79). -/

/-- Payload of a `call-initiated` event as seen by the provider
(`CallInitiatedData`): callId, caller id (`from`), call kind, caller
display name. -/
structure CallData where
  callId : String
  fromUser : String
  isVideoCall : Bool
  callerName : String
deriving DecidableEq

/-- Provider-level state. -/
structure CState where
  status : CallStatus
  callId : Option String
  otherUser : Option String
  pc : Bool
  incomingRef : Option CallData
  incomingModal : Option CallData
deriving DecidableEq

/-- Emissions of the provider layer. -/
inductive ProvEff where
  | emitReject (toUser : String) (callId : String)
  | emitAccept (toUser : String) (callId : String)
  | emitInitiate (toUser : String) (callId : String)
  | emitEnd (toUser : String) (callId : String)
deriving DecidableEq

/-- Initial provider state (idle hook, no pending incoming call). -/
def initC : CState where
  status := .idle
  callId := none
  otherUser := none
  pc := false
  incomingRef := none
  incomingModal := none

/-- `handleCallInitiated` (CallProvider.tsx:58–79): a notification whose
callId equals the pending prompt's callId is ignored (duplicate-modal
guard); otherwise, when idle, the prompt is recorded and surfaced; when
not idle, the provider auto-emits `reject-call` to the caller with the
incoming callId and touches nothing. -/
def handleCallInitiated (s : CState) (d : CallData) : CState × List ProvEff :=
  if s.incomingRef.map CallData.callId = some d.callId then (s, [])
  else if s.status = .idle then
    ({ s with incomingRef := some d, incomingModal := some d }, [])
  else (s, [.emitReject d.fromUser d.callId])

/-- `startVoiceCall` / `startVideoCall` (CallProvider.tsx:106–118):
clear any pending incoming-call state, then `webrtc.startCall` (success
path: status calling, fresh callId, peer recorded, peer connection
created, `initiate-call` emitted). -/
def startOutgoingCall (s : CState) (u newCallId : String) : CState × List ProvEff :=
  ({ s with
      incomingRef := none
      incomingModal := none
      status := .calling
      callId := some newCallId
      otherUser := some u
      pc := true },
   [.emitInitiate u newCallId])

/-- `handleAcceptCall` (CallProvider.tsx:120–141): when a prompt is
pending, `webrtc.answerCall` (success path: status connected, session
fields set, peer connection created, `accept-call` emitted) and the
prompt state is cleared. -/
def acceptIncoming (s : CState) : CState × List ProvEff :=
  match s.incomingModal with
  | some d =>
    ({ s with
        status := .connected
        callId := some d.callId
        otherUser := some d.fromUser
        pc := true
        incomingRef := none
        incomingModal := none },
     [.emitAccept d.fromUser d.callId])
  | none => (s, [])

/-- `handleRejectCall` (CallProvider.tsx:143–149): when a prompt is
pending, `webrtc.rejectCall` (emit `reject-call`, reset status/callId/
peer) and the prompt state is cleared. -/
def rejectIncoming (s : CState) : CState × List ProvEff :=
  match s.incomingModal with
  | some d =>
    ({ s with
        status := .idle
        callId := none
        otherUser := none
        incomingRef := none
        incomingModal := none },
     [.emitReject d.fromUser d.callId])
  | none => (s, [])

/-- Call teardown as the provider observes it: `webrtc.endCall` resets
the hook session and the `onCallEnded` callback (CallProvider.tsx:48–52)
clears the prompt state.  Covers the user hanging up and the peer's
`call-ended` / `call-rejected` events. -/
def endActiveCall (s : CState) : CState :=
  { s with
      status := .idle
      callId := none
      otherUser := none
      pc := false
      incomingRef := none
      incomingModal := none }

/-- `pc.onconnectionstatechange` reaching `connected`: only a live peer
connection (created by start/answer) reports it; the hook sets the
status. -/
def peerConnected (s : CState) : CState :=
  if s.pc then { s with status := .connected } else s

/-- `handleDisconnect` (CallProvider.tsx:89–104): socket disconnect
during a call ends the call. -/
def socketDisconnected (s : CState) : CState :=
  if s.status ≠ .idle then endActiveCall s else s

/-- Events driving the provider state machine. -/
inductive PEvent where
  | callInitiated (d : CallData)
  | acceptCall
  | rejectCall
  | startCall (u newCallId : String)
  | callEnded
  | peerConnected
  | socketDisconnected
deriving DecidableEq

/-- One provider transition (emissions dropped). -/
def step (s : CState) : PEvent → CState
  | .callInitiated d => (handleCallInitiated s d).1
  | .acceptCall => (acceptIncoming s).1
  | .rejectCall => (rejectIncoming s).1
  | .startCall u newCallId => (startOutgoingCall s u newCallId).1
  | .callEnded => endActiveCall s
  | .peerConnected => peerConnected s
  | .socketDisconnected => socketDisconnected s

/-- The provider state reached from startup after a list of events. -/
def run (evs : List PEvent) : CState :=
  evs.foldl step initC

/-- Reachability invariant of the provider: whenever the hook is not
idle, no incoming-call prompt state is pending (the component clears the
ref and modal on accept, reject, outgoing start and teardown); a live
peer connection implies a non-idle status; and a pending modal implies
no peer connection. -/
def Inv (s : CState) : Prop :=
  (s.status ≠ .idle → s.incomingRef = none ∧ s.incomingModal = none) ∧
  (s.pc = true → s.status ≠ .idle) ∧
  (s.incomingModal ≠ none → s.pc = false)

theorem inv_initC : Inv initC := by
  refine ⟨?_, ?_, ?_⟩ <;> intro h <;> simp [initC] at h ⊢

theorem inv_step (s : CState) (e : PEvent) (hs : Inv s) : Inv (step s e) := by
  obtain ⟨h1, h2, h3⟩ := hs
  cases e with
  | callInitiated d =>
    simp only [step, handleCallInitiated]
    by_cases hdup : s.incomingRef.map CallData.callId = some d.callId
    · simpa [hdup] using ⟨h1, h2, h3⟩
    · by_cases hidle : s.status = .idle
      · have hpc : s.pc = false := by
          cases hpc : s.pc with
          | false => rfl
          | true => exact absurd hidle (h2 hpc)
        refine ⟨?_, ?_, ?_⟩ <;> simp [hdup, hidle, hpc]
      · simpa [hdup, hidle] using ⟨h1, h2, h3⟩
  | acceptCall =>
    simp only [step, acceptIncoming]
    cases hm : s.incomingModal with
    | none => simpa using ⟨h1, h2, h3⟩
    | some d => refine ⟨?_, ?_, ?_⟩ <;> simp
  | rejectCall =>
    simp only [step, rejectIncoming]
    cases hm : s.incomingModal with
    | none => simpa using ⟨h1, h2, h3⟩
    | some d =>
      have hpc : s.pc = false := h3 (by simp [hm])
      refine ⟨?_, ?_, ?_⟩ <;> simp [hpc]
  | startCall u newCallId =>
    refine ⟨?_, ?_, ?_⟩ <;> simp [step, startOutgoingCall]
  | callEnded =>
    refine ⟨?_, ?_, ?_⟩ <;> simp [step, endActiveCall]
  | peerConnected =>
    simp only [step, peerConnected]
    cases hpc : s.pc with
    | false => simpa using ⟨h1, h2, h3⟩
    | true =>
      have hni : s.status ≠ .idle := h2 hpc
      obtain ⟨hr, hmo⟩ := h1 hni
      refine ⟨?_, ?_, ?_⟩ <;> simp [hr, hmo]
  | socketDisconnected =>
    simp only [step, socketDisconnected]
    by_cases hidle : s.status = .idle
    · simpa [hidle] using ⟨h1, h2, h3⟩
    · refine ⟨?_, ?_, ?_⟩ <;> simp [hidle, endActiveCall]

theorem inv_run (evs : List PEvent) : Inv (run evs) := by
  suffices h : ∀ s, Inv s → Inv (List.foldl step s evs) from h initC inv_initC
  induction evs with
  | nil => intro s hs; exact hs
  | cons e rest ih => intro s hs; exact ih (step s e) (inv_step s e hs)

end Provider

/-- C2: at most one non-idle call session per client.  In every
reachable provider state whose call status is not idle, an inbound
`call-initiated` event is answered by an automatic `reject-call` to the
new caller carrying the incoming callId — without surfacing a prompt —
and the state is returned unchanged: no field of the active session
(status, callId, peer, peer connection) is altered and the pending
session is not replaced.  The initiation is thus neither silently
dropped (the reject is always emitted) nor allowed to clobber the
active session. -/
theorem c2_busy_auto_reject (evs : List Provider.PEvent) (d : Provider.CallData)
    (hbusy : (Provider.run evs).status ≠ .idle) :
    Provider.handleCallInitiated (Provider.run evs) d =
      (Provider.run evs, [.emitReject d.fromUser d.callId]) := by
  obtain ⟨h1, _, _⟩ := Provider.inv_run evs
  obtain ⟨href, _⟩ := h1 hbusy
  simp [Provider.handleCallInitiated, href, hbusy]

theorem c2_busy_auto_reject_witness :
    (Provider.run [.startCall "bob" "call-1"]).status ≠ .idle ∧
    Provider.handleCallInitiated (Provider.run [.startCall "bob" "call-1"])
        ⟨"call-2", "carol", false, "Carol"⟩ =
      (Provider.run [.startCall "bob" "call-1"],
       [.emitReject "carol" "call-2"]) :=
  ⟨by decide,
   c2_busy_auto_reject [.startCall "bob" "call-1"]
     ⟨"call-2", "carol", false, "Carol"⟩ (by decide)⟩

/-- C10: duplicate delivery of the same initiation is idempotent.  While
an incoming-call prompt is pending and the client is idle, a second
`call-initiated` event carrying the same callId as the pending prompt is
ignored: the state is unchanged (no second prompt recorded) and nothing
is emitted (in particular no `reject-call`), so delivering the same
initiation twice is equivalent to delivering it once. -/
theorem c10_duplicate_initiation_ignored (s : Provider.CState)
    (d0 d : Provider.CallData) (href : s.incomingRef = some d0)
    (hid : d0.callId = d.callId) (_hidle : s.status = CallStatus.idle) :
    Provider.handleCallInitiated s d = (s, []) := by
  simp [Provider.handleCallInitiated, href, hid]

theorem c10_duplicate_initiation_ignored_witness :
    ((Provider.run [.callInitiated ⟨"call-5", "dave", true, "Dave"⟩]).incomingRef =
        some ⟨"call-5", "dave", true, "Dave"⟩ ∧
     (⟨"call-5", "dave", true, "Dave"⟩ : Provider.CallData).callId =
        (⟨"call-5", "dave", true, "Dave"⟩ : Provider.CallData).callId ∧
     (Provider.run [.callInitiated ⟨"call-5", "dave", true, "Dave"⟩]).status = .idle) ∧
    Provider.handleCallInitiated
        (Provider.run [.callInitiated ⟨"call-5", "dave", true, "Dave"⟩])
        ⟨"call-5", "dave", true, "Dave"⟩ =
      (Provider.run [.callInitiated ⟨"call-5", "dave", true, "Dave"⟩], []) :=
  ⟨⟨by decide, rfl, by decide⟩,
   c10_duplicate_initiation_ignored
     (Provider.run [.callInitiated ⟨"call-5", "dave", true, "Dave"⟩])
     ⟨"call-5", "dave", true, "Dave"⟩ ⟨"call-5", "dave", true, "Dave"⟩
     (by decide) rfl (by decide)⟩
